import Mathlib

/-!
Verification development for the AVIF native AV1 decode pipeline
(`src/AvifNative/AV1Decoder.cpp`).

The embedding models the two public entry points `DecodeColorImage` and
`DecodeAlphaImage` and the internal helper `DecodeAV1Image`.  The libaom
collaborators (`aom_codec_dec_init`, `aom_codec_decode`,
`aom_codec_get_frame`, `ConvertColorImage`, `ConvertAlphaImage`) are
modelled by an environment record `AomEnv` fixing what each collaborator
call returns during the call.  Pointer arguments are modelled by `Bool`
(non-null?) for opaque pointers and by `Option` for pointers whose
pointee is read by the core.  Side effects on external resources are
recorded in an ordered event trace, so claims about release counts,
ordering, and which collaborators run can be stated directly.
-/

namespace AvifNative

/-- `aom_codec_err_t`: `AOM_CODEC_OK`, `AOM_CODEC_MEM_ERROR`, or any other
libaom error code (collapsed, distinguished by its numeric value). -/
inductive AomCodecErr where
  | AOM_CODEC_OK : AomCodecErr
  | AOM_CODEC_MEM_ERROR : AomCodecErr
  | other : Nat → AomCodecErr
  deriving DecidableEq, Repr

/-- `DecoderStatus` from `AvifNative.h`: the closed status enumeration
returned across the native boundary. -/
inductive DecoderStatus where
  | Ok : DecoderStatus
  | NullParameter : DecoderStatus
  | OutOfMemory : DecoderStatus
  | DecodeFailed : DecoderStatus
  | ColorSizeMismatch : DecoderStatus
  | AlphaSizeMismatch : DecoderStatus
  deriving DecidableEq, Repr

/-- `aom_image_t` restricted to the fields the core reads:
display width `d_w` and display height `d_h`. -/
structure AomImage where
  d_w : Nat
  d_h : Nat
  deriving DecidableEq, Repr

/-- `DecodeInfo` restricted to the fields the core reads:
`expectedWidth` and `expectedHeight` (zero means unconstrained). -/
structure DecodeInfo where
  expectedWidth : Nat
  expectedHeight : Nat
  deriving DecidableEq, Repr

/-- `ColorConversionInfo` is opaque to the core: it is only forwarded to
`ConvertColorImage`. -/
structure ColorConversionInfo where
  opaque_data : Nat
  deriving DecidableEq, Repr

/-- Behaviour of the external collaborators during one call:
the result of `aom_codec_dec_init`, the result of `aom_codec_decode`,
the frame (if any) produced by the first `aom_codec_get_frame`, and the
statuses returned by the two conversion routines. -/
structure AomEnv where
  initResult : AomCodecErr
  decodeResult : AomCodecErr
  frame : Option AomImage
  convertColorResult : DecoderStatus
  convertAlphaResult : DecoderStatus
  deriving DecidableEq, Repr

/-- Observable external events of one call, in order. -/
inductive Event where
  | init : Event
  | decode : Event
  | convertColor : Event
  | convertAlpha : Event
  | destroy : Event
  deriving DecidableEq, Repr

/-- Outcome of a call: either the function returns a status having
produced an event trace, or it dereferences a null pointer
(undefined behaviour; no return, no further events). -/
inductive Outcome where
  | returns : DecoderStatus → List Event → Outcome
  | nullDeref : Outcome
  deriving DecidableEq, Repr

/-- The anonymous-namespace helper `DecodeAV1Image`: submit the buffer via
`aom_codec_decode`, classify a failure (`AOM_CODEC_MEM_ERROR` ↦
`OutOfMemory`, anything else ↦ `DecodeFailed`), then fetch the first
frame; a missing frame is also `DecodeFailed`.  Returns the status and
the value stored through the `decodedImage` out-parameter. -/
def DecodeAV1Image (env : AomEnv) : DecoderStatus × Option AomImage :=
  if env.decodeResult ≠ AomCodecErr.AOM_CODEC_OK then
    if env.decodeResult = AomCodecErr.AOM_CODEC_MEM_ERROR then
      (DecoderStatus.OutOfMemory, none)
    else
      (DecoderStatus.DecodeFailed, none)
  else
    match env.frame with
    | none => (DecoderStatus.DecodeFailed, none)
    | some img => (DecoderStatus.Ok, some img)

/-- The dimension-mismatch condition shared verbatim by both entry points:
`decodeInfo->expectedWidth != 0 && aomImage->d_w != decodeInfo->expectedWidth ||
decodeInfo->expectedHeight != 0 && aomImage->d_h != decodeInfo->expectedHeight`.
In both C++ and Lean, `&&` binds tighter than `||`, so the condition
groups as `(a && b) || (c && d)`. -/
def sizeMismatch (decodeInfo : DecodeInfo) (aomImage : AomImage) : Bool :=
  decodeInfo.expectedWidth != 0 && aomImage.d_w != decodeInfo.expectedWidth ||
  decodeInfo.expectedHeight != 0 && aomImage.d_h != decodeInfo.expectedHeight

/-- `DecodeColorImage`.  Pointer parameters: `compressedNonNull` models
`compressedColorImage != nullptr`, `decodedImageNonNull` models
`decodedImage != nullptr`; `colorInfo` and `decodeInfo` are `Option`s
because the core (or its collaborators) reads through them without a
null check. -/
def DecodeColorImage (env : AomEnv)
    (compressedNonNull : Bool) (compressedColorImageSize : Nat)
    (colorInfo : Option ColorConversionInfo)
    (decodeInfo : Option DecodeInfo)
    (decodedImageNonNull : Bool) : Outcome :=
  if !compressedNonNull || compressedColorImageSize = 0 || !decodedImageNonNull then
    Outcome.returns DecoderStatus.NullParameter []
  else
    let error := env.initResult
    if error ≠ AomCodecErr.AOM_CODEC_OK then
      if error = AomCodecErr.AOM_CODEC_MEM_ERROR then
        Outcome.returns DecoderStatus.OutOfMemory [Event.init]
      else
        Outcome.returns DecoderStatus.DecodeFailed [Event.init]
    else
      let (status, aomImage) := DecodeAV1Image env
      if status = DecoderStatus.Ok then
        match decodeInfo with
        | none => Outcome.nullDeref
        | some di =>
          match aomImage with
          | none => Outcome.nullDeref
          | some img =>
            if sizeMismatch di img then
              Outcome.returns DecoderStatus.ColorSizeMismatch
                [Event.init, Event.decode, Event.destroy]
            else
              Outcome.returns env.convertColorResult
                [Event.init, Event.decode, Event.convertColor, Event.destroy]
      else
        Outcome.returns status [Event.init, Event.decode, Event.destroy]

/-- `DecodeAlphaImage`: identical pipeline to `DecodeColorImage`, except
the mismatch status is `AlphaSizeMismatch` and the conversion routine is
`ConvertAlphaImage` (which takes no `ColorConversionInfo`). -/
def DecodeAlphaImage (env : AomEnv)
    (compressedNonNull : Bool) (compressedAlphaImageSize : Nat)
    (decodeInfo : Option DecodeInfo)
    (outputImageNonNull : Bool) : Outcome :=
  if !compressedNonNull || compressedAlphaImageSize = 0 || !outputImageNonNull then
    Outcome.returns DecoderStatus.NullParameter []
  else
    let error := env.initResult
    if error ≠ AomCodecErr.AOM_CODEC_OK then
      if error = AomCodecErr.AOM_CODEC_MEM_ERROR then
        Outcome.returns DecoderStatus.OutOfMemory [Event.init]
      else
        Outcome.returns DecoderStatus.DecodeFailed [Event.init]
    else
      let (status, aomImage) := DecodeAV1Image env
      if status = DecoderStatus.Ok then
        match decodeInfo with
        | none => Outcome.nullDeref
        | some di =>
          match aomImage with
          | none => Outcome.nullDeref
          | some img =>
            if sizeMismatch di img then
              Outcome.returns DecoderStatus.AlphaSizeMismatch
                [Event.init, Event.decode, Event.destroy]
            else
              Outcome.returns env.convertAlphaResult
                [Event.init, Event.decode, Event.convertAlpha, Event.destroy]
      else
        Outcome.returns status [Event.init, Event.decode, Event.destroy]

/-- Modelled from the spec (for the refinement claim C10 only): the common
pipeline both entry points are described as implementing — null check,
init with its error mapping, single-frame decode, dimension check,
conversion, unconditional destroy — parameterized by the mismatch status
and the conversion routine, which are the only points of difference. -/
def DecodePlaneImage (env : AomEnv)
    (mismatchStatus : DecoderStatus) (convertEvent : Event)
    (convertResult : DecoderStatus)
    (compressedNonNull : Bool) (compressedSize : Nat)
    (decodeInfo : Option DecodeInfo)
    (outputNonNull : Bool) : Outcome :=
  if !compressedNonNull || compressedSize = 0 || !outputNonNull then
    Outcome.returns DecoderStatus.NullParameter []
  else
    let error := env.initResult
    if error ≠ AomCodecErr.AOM_CODEC_OK then
      if error = AomCodecErr.AOM_CODEC_MEM_ERROR then
        Outcome.returns DecoderStatus.OutOfMemory [Event.init]
      else
        Outcome.returns DecoderStatus.DecodeFailed [Event.init]
    else
      let (status, aomImage) := DecodeAV1Image env
      if status = DecoderStatus.Ok then
        match decodeInfo with
        | none => Outcome.nullDeref
        | some di =>
          match aomImage with
          | none => Outcome.nullDeref
          | some img =>
            if sizeMismatch di img then
              Outcome.returns mismatchStatus
                [Event.init, Event.decode, Event.destroy]
            else
              Outcome.returns convertResult
                [Event.init, Event.decode, convertEvent, Event.destroy]
      else
        Outcome.returns status [Event.init, Event.decode, Event.destroy]

/-- C2: dimension validation fails iff (expectedWidth ≠ 0 and decoded
width differs) or (expectedHeight ≠ 0 and decoded height differs); with
both expectations zero it always passes; the un-parenthesized `&&`/`||`
condition groups as `(a && b) || (c && d)`. -/
theorem sizeMismatch_iff_spec (di : DecodeInfo) (img : AomImage) :
    (sizeMismatch di img = true ↔
      (di.expectedWidth ≠ 0 ∧ img.d_w ≠ di.expectedWidth) ∨
      (di.expectedHeight ≠ 0 ∧ img.d_h ≠ di.expectedHeight)) ∧
    (di.expectedWidth = 0 → di.expectedHeight = 0 → sizeMismatch di img = false) ∧
    (sizeMismatch di img =
      ((di.expectedWidth != 0 && img.d_w != di.expectedWidth) ||
       (di.expectedHeight != 0 && img.d_h != di.expectedHeight))) := by
  refine ⟨?_, ?_, rfl⟩
  · simp [sizeMismatch]
  · intro hw hh
    simp [sizeMismatch, hw, hh]

/-- Witness for C2 at a concrete input: a decode expectation of
`{0, 0}` never reports a mismatch, even against a nonzero frame. -/
theorem sizeMismatch_iff_spec_witness :
    sizeMismatch ⟨0, 0⟩ ⟨5, 7⟩ = false :=
  (sizeMismatch_iff_spec ⟨0, 0⟩ ⟨5, 7⟩).2.1 rfl rfl

/-- C4: in the single-frame decode step, an `AOM_CODEC_MEM_ERROR` from
`aom_codec_decode` yields `OutOfMemory`, any other non-success error
yields `DecodeFailed`, and a successful decode call with no displayable
frame in the output queue also yields `DecodeFailed` (with a null frame,
never an undefined frame access). -/
theorem DecodeAV1Image_error_classification (env : AomEnv) :
    (env.decodeResult = AomCodecErr.AOM_CODEC_MEM_ERROR →
      DecodeAV1Image env = (DecoderStatus.OutOfMemory, none)) ∧
    (env.decodeResult ≠ AomCodecErr.AOM_CODEC_OK →
      env.decodeResult ≠ AomCodecErr.AOM_CODEC_MEM_ERROR →
      DecodeAV1Image env = (DecoderStatus.DecodeFailed, none)) ∧
    (env.decodeResult = AomCodecErr.AOM_CODEC_OK → env.frame = none →
      DecodeAV1Image env = (DecoderStatus.DecodeFailed, none)) := by
  refine ⟨?_, ?_, ?_⟩
  · intro h
    simp [DecodeAV1Image, h]
  · intro h h'
    simp [DecodeAV1Image, h, h']
  · intro h h'
    simp [DecodeAV1Image, h, h']

/-- Witness for C4 at concrete environments: a memory error, a generic
decode error, and a successful decode call with an empty output queue. -/
theorem DecodeAV1Image_error_classification_witness :
    DecodeAV1Image ⟨AomCodecErr.AOM_CODEC_OK, AomCodecErr.AOM_CODEC_MEM_ERROR, none,
        DecoderStatus.Ok, DecoderStatus.Ok⟩ = (DecoderStatus.OutOfMemory, none) ∧
    DecodeAV1Image ⟨AomCodecErr.AOM_CODEC_OK, AomCodecErr.other 3, none,
        DecoderStatus.Ok, DecoderStatus.Ok⟩ = (DecoderStatus.DecodeFailed, none) ∧
    DecodeAV1Image ⟨AomCodecErr.AOM_CODEC_OK, AomCodecErr.AOM_CODEC_OK, none,
        DecoderStatus.Ok, DecoderStatus.Ok⟩ = (DecoderStatus.DecodeFailed, none) :=
  ⟨(DecodeAV1Image_error_classification _).1 rfl,
   (DecodeAV1Image_error_classification _).2.1 (by decide) (by decide),
   (DecodeAV1Image_error_classification _).2.2 rfl rfl⟩

/-- C3: a null compressed buffer, a zero buffer length, or a null output
bitmap makes both entry points return `NullParameter` immediately, with
an empty event trace: in particular no decoder instance is initialized. -/
theorem null_params_reject_before_init (env : AomEnv)
    (c : Bool) (s : Nat) (ci : Option ColorConversionInfo)
    (di : Option DecodeInfo) (o : Bool)
    (h : c = false ∨ s = 0 ∨ o = false) :
    DecodeColorImage env c s ci di o =
      Outcome.returns DecoderStatus.NullParameter [] ∧
    DecodeAlphaImage env c s di o =
      Outcome.returns DecoderStatus.NullParameter [] := by
  rcases h with h | h | h <;> subst h <;>
    simp [DecodeColorImage, DecodeAlphaImage]

/-- Witness for C3 at a concrete input: a zero-length buffer. -/
theorem null_params_reject_before_init_witness :
    DecodeColorImage ⟨AomCodecErr.AOM_CODEC_OK, AomCodecErr.AOM_CODEC_OK, none,
        DecoderStatus.Ok, DecoderStatus.Ok⟩ true 0 none none true =
      Outcome.returns DecoderStatus.NullParameter [] :=
  (null_params_reject_before_init _ true 0 none none true (Or.inr (Or.inl rfl))).1

/-- C5: when decoder initialization fails, both entry points return
`OutOfMemory` for `AOM_CODEC_MEM_ERROR` and `DecodeFailed` for any other
initialization error; the trace is `[init]` alone, so no release step is
performed. -/
theorem init_failure_classification (env : AomEnv)
    (c : Bool) (s : Nat) (ci : Option ColorConversionInfo)
    (di : Option DecodeInfo) (o : Bool)
    (hc : c = true) (hs : s ≠ 0) (ho : o = true)
    (hinit : env.initResult ≠ AomCodecErr.AOM_CODEC_OK) :
    DecodeColorImage env c s ci di o =
      Outcome.returns
        (if env.initResult = AomCodecErr.AOM_CODEC_MEM_ERROR then
           DecoderStatus.OutOfMemory else DecoderStatus.DecodeFailed)
        [Event.init] ∧
    DecodeAlphaImage env c s di o =
      Outcome.returns
        (if env.initResult = AomCodecErr.AOM_CODEC_MEM_ERROR then
           DecoderStatus.OutOfMemory else DecoderStatus.DecodeFailed)
        [Event.init] := by
  subst hc; subst ho
  constructor <;>
    · simp only [DecodeColorImage, DecodeAlphaImage, Bool.not_true,
        Bool.false_or, if_neg hs]
      rw [if_pos hinit]
      by_cases hm : env.initResult = AomCodecErr.AOM_CODEC_MEM_ERROR <;>
        simp [hm, hs]

/-- Witness for C5 at a concrete input: a non-memory init error maps to
`DecodeFailed` with only the init event in the trace. -/
theorem init_failure_classification_witness :
    DecodeColorImage ⟨AomCodecErr.other 1, AomCodecErr.AOM_CODEC_OK, none,
        DecoderStatus.Ok, DecoderStatus.Ok⟩ true 4 none none true =
      Outcome.returns DecoderStatus.DecodeFailed [Event.init] := by
  have h := (init_failure_classification
    ⟨AomCodecErr.other 1, AomCodecErr.AOM_CODEC_OK, none,
        DecoderStatus.Ok, DecoderStatus.Ok⟩ true 4 none none true
    rfl (by decide) rfl (by decide)).1
  simpa using h

/-- Helper: once the null checks pass and init succeeds, a color call
either hits undefined behaviour or returns with one of the two
destroy-terminated traces. -/
lemma DecodeColorImage_outcomes (env : AomEnv) (s : Nat)
    (ci : Option ColorConversionInfo) (di : Option DecodeInfo)
    (hs : s ≠ 0) (hinit : env.initResult = AomCodecErr.AOM_CODEC_OK) :
    DecodeColorImage env true s ci di true = Outcome.nullDeref ∨
    (∃ st, DecodeColorImage env true s ci di true =
       Outcome.returns st [Event.init, Event.decode, Event.destroy]) ∨
    DecodeColorImage env true s ci di true =
      Outcome.returns env.convertColorResult
        [Event.init, Event.decode, Event.convertColor, Event.destroy] := by
  rcases hdr : env.decodeResult with _ | _ | m
  · rcases hfr : env.frame with _ | f
    · exact Or.inr (Or.inl ⟨DecoderStatus.DecodeFailed,
        by simp [DecodeColorImage, DecodeAV1Image, hs, hinit, hdr, hfr]⟩)
    · rcases di with _ | di
      · exact Or.inl (by simp [DecodeColorImage, DecodeAV1Image, hs, hinit, hdr, hfr])
      · by_cases hm : sizeMismatch di f
        · exact Or.inr (Or.inl ⟨DecoderStatus.ColorSizeMismatch,
            by simp [DecodeColorImage, DecodeAV1Image, hs, hinit, hdr, hfr, hm]⟩)
        · exact Or.inr (Or.inr
            (by simp [DecodeColorImage, DecodeAV1Image, hs, hinit, hdr, hfr, hm]))
  · exact Or.inr (Or.inl ⟨DecoderStatus.OutOfMemory,
      by simp [DecodeColorImage, DecodeAV1Image, hs, hinit, hdr]⟩)
  · exact Or.inr (Or.inl ⟨DecoderStatus.DecodeFailed,
      by simp [DecodeColorImage, DecodeAV1Image, hs, hinit, hdr]⟩)

/-- Helper: the analogous outcome characterization for the alpha path. -/
lemma DecodeAlphaImage_outcomes (env : AomEnv) (s : Nat)
    (di : Option DecodeInfo)
    (hs : s ≠ 0) (hinit : env.initResult = AomCodecErr.AOM_CODEC_OK) :
    DecodeAlphaImage env true s di true = Outcome.nullDeref ∨
    (∃ st, DecodeAlphaImage env true s di true =
       Outcome.returns st [Event.init, Event.decode, Event.destroy]) ∨
    DecodeAlphaImage env true s di true =
      Outcome.returns env.convertAlphaResult
        [Event.init, Event.decode, Event.convertAlpha, Event.destroy] := by
  rcases hdr : env.decodeResult with _ | _ | m
  · rcases hfr : env.frame with _ | f
    · exact Or.inr (Or.inl ⟨DecoderStatus.DecodeFailed,
        by simp [DecodeAlphaImage, DecodeAV1Image, hs, hinit, hdr, hfr]⟩)
    · rcases di with _ | di
      · exact Or.inl (by simp [DecodeAlphaImage, DecodeAV1Image, hs, hinit, hdr, hfr])
      · by_cases hm : sizeMismatch di f
        · exact Or.inr (Or.inl ⟨DecoderStatus.AlphaSizeMismatch,
            by simp [DecodeAlphaImage, DecodeAV1Image, hs, hinit, hdr, hfr, hm]⟩)
        · exact Or.inr (Or.inr
            (by simp [DecodeAlphaImage, DecodeAV1Image, hs, hinit, hdr, hfr, hm]))
  · exact Or.inr (Or.inl ⟨DecoderStatus.OutOfMemory,
      by simp [DecodeAlphaImage, DecodeAV1Image, hs, hinit, hdr]⟩)
  · exact Or.inr (Or.inl ⟨DecoderStatus.DecodeFailed,
      by simp [DecodeAlphaImage, DecodeAV1Image, hs, hinit, hdr]⟩)

/-- C1: whenever decoder initialization succeeds (null checks passed and
`aom_codec_dec_init` returned `AOM_CODEC_OK`) and the call returns, the
trace contains `aom_codec_destroy` exactly once — on decode failure,
size mismatch, conversion failure, and success alike. -/
theorem decoder_released_exactly_once (env : AomEnv) (c : Bool) (s : Nat)
    (ci : Option ColorConversionInfo) (di : Option DecodeInfo) (o : Bool)
    (st : DecoderStatus) (tr : List Event)
    (hc : c = true) (hs : s ≠ 0) (ho : o = true)
    (hinit : env.initResult = AomCodecErr.AOM_CODEC_OK) :
    (DecodeColorImage env c s ci di o = Outcome.returns st tr →
      tr.count Event.destroy = 1) ∧
    (DecodeAlphaImage env c s di o = Outcome.returns st tr →
      tr.count Event.destroy = 1) := by
  subst hc; subst ho
  constructor
  · intro h
    rcases DecodeColorImage_outcomes env s ci di hs hinit with h0 | ⟨st', h1⟩ | h1
    · rw [h0] at h; exact absurd h (by simp)
    · rw [h1] at h
      injection h with h2 h3
      subst h3; decide
    · rw [h1] at h
      injection h with h2 h3
      subst h3; decide
  · intro h
    rcases DecodeAlphaImage_outcomes env s di hs hinit with h0 | ⟨st', h1⟩ | h1
    · rw [h0] at h; exact absurd h (by simp)
    · rw [h1] at h
      injection h with h2 h3
      subst h3; decide
    · rw [h1] at h
      injection h with h2 h3
      subst h3; decide

/-- Witness for C1 at a concrete input: a fully successful color decode
releases the decoder exactly once. -/
theorem decoder_released_exactly_once_witness :
    ([Event.init, Event.decode, Event.convertColor, Event.destroy].count
      Event.destroy = 1) :=
  (decoder_released_exactly_once
    ⟨AomCodecErr.AOM_CODEC_OK, AomCodecErr.AOM_CODEC_OK, some ⟨4, 4⟩,
        DecoderStatus.Ok, DecoderStatus.Ok⟩
    true 1 none (some ⟨0, 0⟩) true DecoderStatus.Ok
    [Event.init, Event.decode, Event.convertColor, Event.destroy]
    rfl (by decide) rfl rfl).1 rfl

/-- C6: on a successful decode, if `expectedWidth ≠ 0` and the decoded
width differs from it — no constraint on the decoded height, so in
particular even when the height matches — the color path returns
`ColorSizeMismatch` and the alpha path returns `AlphaSizeMismatch`. -/
theorem width_mismatch_statuses (env : AomEnv) (c : Bool) (s : Nat)
    (ci : Option ColorConversionInfo) (di : DecodeInfo) (img : AomImage) (o : Bool)
    (hc : c = true) (hs : s ≠ 0) (ho : o = true)
    (hinit : env.initResult = AomCodecErr.AOM_CODEC_OK)
    (hdec : env.decodeResult = AomCodecErr.AOM_CODEC_OK)
    (hframe : env.frame = some img)
    (hw : di.expectedWidth ≠ 0) (hne : img.d_w ≠ di.expectedWidth) :
    DecodeColorImage env c s ci (some di) o =
      Outcome.returns DecoderStatus.ColorSizeMismatch
        [Event.init, Event.decode, Event.destroy] ∧
    DecodeAlphaImage env c s (some di) o =
      Outcome.returns DecoderStatus.AlphaSizeMismatch
        [Event.init, Event.decode, Event.destroy] := by
  subst hc; subst ho
  have hm : sizeMismatch di img = true := by
    simp [sizeMismatch, hw, hne]
  constructor <;>
    simp [DecodeColorImage, DecodeAlphaImage, DecodeAV1Image,
      hs, hinit, hdec, hframe, hm]

/-- Witness for C6 at a concrete input: expected 4×4, decoded 3×4
(height matches) — both paths report their mismatch status. -/
theorem width_mismatch_statuses_witness :
    DecodeColorImage
      ⟨AomCodecErr.AOM_CODEC_OK, AomCodecErr.AOM_CODEC_OK, some ⟨3, 4⟩,
          DecoderStatus.Ok, DecoderStatus.Ok⟩
      true 2 none (some ⟨4, 4⟩) true =
      Outcome.returns DecoderStatus.ColorSizeMismatch
        [Event.init, Event.decode, Event.destroy] ∧
    DecodeAlphaImage
      ⟨AomCodecErr.AOM_CODEC_OK, AomCodecErr.AOM_CODEC_OK, some ⟨3, 4⟩,
          DecoderStatus.Ok, DecoderStatus.Ok⟩
      true 2 (some ⟨4, 4⟩) true =
      Outcome.returns DecoderStatus.AlphaSizeMismatch
        [Event.init, Event.decode, Event.destroy] :=
  width_mismatch_statuses _ true 2 none ⟨4, 4⟩ ⟨3, 4⟩ true
    rfl (by decide) rfl rfl rfl rfl (by decide) (by decide)

/-- C7: when dimension validation fails, no conversion routine runs (so
the caller-owned output bitmap is untouched by the core, which only
writes it through conversion) and the mismatch status is returned with
the destroy event already in the trace, i.e. after the decoder is
released. -/
theorem mismatch_skips_conversion (env : AomEnv) (c : Bool) (s : Nat)
    (ci : Option ColorConversionInfo) (di : DecodeInfo) (img : AomImage) (o : Bool)
    (hc : c = true) (hs : s ≠ 0) (ho : o = true)
    (hinit : env.initResult = AomCodecErr.AOM_CODEC_OK)
    (hdec : env.decodeResult = AomCodecErr.AOM_CODEC_OK)
    (hframe : env.frame = some img)
    (hm : sizeMismatch di img = true) :
    DecodeColorImage env c s ci (some di) o =
      Outcome.returns DecoderStatus.ColorSizeMismatch
        [Event.init, Event.decode, Event.destroy] ∧
    DecodeAlphaImage env c s (some di) o =
      Outcome.returns DecoderStatus.AlphaSizeMismatch
        [Event.init, Event.decode, Event.destroy] ∧
    Event.convertColor ∉ [Event.init, Event.decode, Event.destroy] ∧
    Event.convertAlpha ∉ [Event.init, Event.decode, Event.destroy] ∧
    [Event.init, Event.decode, Event.destroy].getLast? = some Event.destroy := by
  subst hc; subst ho
  refine ⟨?_, ?_, by decide, by decide, by decide⟩ <;>
    simp [DecodeColorImage, DecodeAlphaImage, DecodeAV1Image,
      hs, hinit, hdec, hframe, hm]

/-- Witness for C7 at a concrete input: expected 8×9 against a decoded
8×5 frame (height constrained and wrong). -/
theorem mismatch_skips_conversion_witness :
    DecodeColorImage
      ⟨AomCodecErr.AOM_CODEC_OK, AomCodecErr.AOM_CODEC_OK, some ⟨8, 5⟩,
          DecoderStatus.Ok, DecoderStatus.Ok⟩
      true 3 none (some ⟨8, 9⟩) true =
      Outcome.returns DecoderStatus.ColorSizeMismatch
        [Event.init, Event.decode, Event.destroy] ∧
    Event.convertColor ∉ [Event.init, Event.decode, Event.destroy] :=
  ⟨(mismatch_skips_conversion
      ⟨AomCodecErr.AOM_CODEC_OK, AomCodecErr.AOM_CODEC_OK, some ⟨8, 5⟩,
          DecoderStatus.Ok, DecoderStatus.Ok⟩ true 3 none ⟨8, 9⟩ ⟨8, 5⟩ true
      rfl (by decide) rfl rfl rfl rfl (by decide)).1,
   (mismatch_skips_conversion
      ⟨AomCodecErr.AOM_CODEC_OK, AomCodecErr.AOM_CODEC_OK, some ⟨8, 5⟩,
          DecoderStatus.Ok, DecoderStatus.Ok⟩ true 3 none ⟨8, 9⟩ ⟨8, 5⟩ true
      rfl (by decide) rfl rfl rfl rfl (by decide)).2.2.1⟩

/-- C8: when decode and dimension validation succeed, the status returned
by the conversion collaborator is returned to the caller verbatim —
whatever value it is — by both entry points. -/
theorem convert_status_verbatim (env : AomEnv) (c : Bool) (s : Nat)
    (ci : Option ColorConversionInfo) (di : DecodeInfo) (img : AomImage) (o : Bool)
    (hc : c = true) (hs : s ≠ 0) (ho : o = true)
    (hinit : env.initResult = AomCodecErr.AOM_CODEC_OK)
    (hdec : env.decodeResult = AomCodecErr.AOM_CODEC_OK)
    (hframe : env.frame = some img)
    (hok : sizeMismatch di img = false) :
    DecodeColorImage env c s ci (some di) o =
      Outcome.returns env.convertColorResult
        [Event.init, Event.decode, Event.convertColor, Event.destroy] ∧
    DecodeAlphaImage env c s (some di) o =
      Outcome.returns env.convertAlphaResult
        [Event.init, Event.decode, Event.convertAlpha, Event.destroy] := by
  subst hc; subst ho
  constructor <;>
    simp [DecodeColorImage, DecodeAlphaImage, DecodeAV1Image,
      hs, hinit, hdec, hframe, hok]

/-- Witness for C8 at a concrete input: a conversion collaborator that
reports `OutOfMemory` (color) and `DecodeFailed` (alpha) has those exact
statuses propagated. -/
theorem convert_status_verbatim_witness :
    DecodeColorImage
      ⟨AomCodecErr.AOM_CODEC_OK, AomCodecErr.AOM_CODEC_OK, some ⟨8, 8⟩,
          DecoderStatus.OutOfMemory, DecoderStatus.DecodeFailed⟩
      true 5 none (some ⟨8, 8⟩) true =
      Outcome.returns DecoderStatus.OutOfMemory
        [Event.init, Event.decode, Event.convertColor, Event.destroy] ∧
    DecodeAlphaImage
      ⟨AomCodecErr.AOM_CODEC_OK, AomCodecErr.AOM_CODEC_OK, some ⟨8, 8⟩,
          DecoderStatus.OutOfMemory, DecoderStatus.DecodeFailed⟩
      true 5 (some ⟨8, 8⟩) true =
      Outcome.returns DecoderStatus.DecodeFailed
        [Event.init, Event.decode, Event.convertAlpha, Event.destroy] :=
  convert_status_verbatim _ true 5 none ⟨8, 8⟩ ⟨8, 8⟩ true
    rfl (by decide) rfl rfl rfl rfl (by decide)

/-- C9: the `NullParameter` precondition check does not cover the
`DecodeInfo` pointer (nor, in the color path, the `ColorConversionInfo`
pointer): with the checked arguments valid, a null `DecodeInfo` is never
rejected with `NullParameter`, and any such call that reaches a
successful decode dereferences the null pointer when reading the
expectation fields. -/
theorem decodeInfo_unchecked (env : AomEnv) (c : Bool) (s : Nat)
    (ci : Option ColorConversionInfo) (o : Bool) (img : AomImage)
    (hc : c = true) (hs : s ≠ 0) (ho : o = true) :
    (∀ tr, DecodeColorImage env c s ci none o ≠
      Outcome.returns DecoderStatus.NullParameter tr) ∧
    (∀ tr, DecodeAlphaImage env c s none o ≠
      Outcome.returns DecoderStatus.NullParameter tr) ∧
    (env.initResult = AomCodecErr.AOM_CODEC_OK →
     env.decodeResult = AomCodecErr.AOM_CODEC_OK →
     env.frame = some img →
      DecodeColorImage env c s ci none o = Outcome.nullDeref ∧
      DecodeAlphaImage env c s none o = Outcome.nullDeref) := by
  subst hc; subst ho
  refine ⟨?_, ?_, ?_⟩
  · intro tr h
    rcases hir : env.initResult with _ | _ | n <;>
      rcases hdr : env.decodeResult with _ | _ | m <;>
      rcases hfr : env.frame with _ | f <;>
      simp_all [DecodeColorImage, DecodeAV1Image, hs]
  · intro tr h
    rcases hir : env.initResult with _ | _ | n <;>
      rcases hdr : env.decodeResult with _ | _ | m <;>
      rcases hfr : env.frame with _ | f <;>
      simp_all [DecodeAlphaImage, DecodeAV1Image, hs]
  · intro hinit hdec hframe
    constructor <;>
      simp [DecodeColorImage, DecodeAlphaImage, DecodeAV1Image,
        hs, hinit, hdec, hframe]

/-- Witness for C9 at a concrete input: valid buffers and output, null
`DecodeInfo`, successful decode — both entry points hit the null
dereference. -/
theorem decodeInfo_unchecked_witness :
    DecodeColorImage
      ⟨AomCodecErr.AOM_CODEC_OK, AomCodecErr.AOM_CODEC_OK, some ⟨2, 2⟩,
          DecoderStatus.Ok, DecoderStatus.Ok⟩
      true 1 none none true = Outcome.nullDeref ∧
    DecodeAlphaImage
      ⟨AomCodecErr.AOM_CODEC_OK, AomCodecErr.AOM_CODEC_OK, some ⟨2, 2⟩,
          DecoderStatus.Ok, DecoderStatus.Ok⟩
      true 1 none true = Outcome.nullDeref :=
  (decodeInfo_unchecked _ true 1 none true ⟨2, 2⟩
    rfl (by decide) rfl).2.2 rfl rfl rfl

/-- C10: both entry points are instances of one parameterized pipeline
(`DecodePlaneImage`, modelled from the spec's step list), differing only
in the mismatch status (`ColorSizeMismatch` vs `AlphaSizeMismatch`) and
which conversion routine runs; for identical inputs and collaborator
behaviour the returned statuses and traces agree up to exactly those two
substitutions. -/
theorem color_alpha_same_pipeline (env : AomEnv)
    (c : Bool) (s : Nat) (ci : Option ColorConversionInfo)
    (di : Option DecodeInfo) (o : Bool) :
    DecodeColorImage env c s ci di o =
      DecodePlaneImage env DecoderStatus.ColorSizeMismatch Event.convertColor
        env.convertColorResult c s di o ∧
    DecodeAlphaImage env c s di o =
      DecodePlaneImage env DecoderStatus.AlphaSizeMismatch Event.convertAlpha
        env.convertAlphaResult c s di o :=
  ⟨rfl, rfl⟩

end AvifNative
